import Mathlib

/-!
Shallow embedding of the fraud-scoring core in `src/ai/fraud_detection.py`
(class `FraudDetectionEngine`: `extract_features`, the four risk
sub-scorers, and `predict_fraud`).

Modelling choices:
* Python floats are modelled as exact rationals (`ℚ`).
* The wall clock read by `datetime.now()` is an explicit `Clock` argument.
* The random beta draws of `np.random.beta(a, b)` are an explicit `Rng`
  argument holding one sampling function per sub-scorer call site; the
  shape parameters are passed to the draw so the distribution family is
  visible in the model.
* Python dicts with known string keys become structures; where key names
  and insertion order are themselves part of a claim, the dict is also
  rendered as an association list in the source's insertion order.
* The trained classifiers (`self.model['rf']`, `self.model['gb']`) are
  abstract probability functions on the scaled feature vector.
* Python's `round(x, 3)` (round-half-to-even) is `round3`, and
  `f"{t:.0f}ms"` keeps only its round-half-to-even integer part.
-/

namespace FraudDetection

/-- The `location` sub-dict of a transaction: `{'country': ...}`. -/
structure Location where
  country : Option String

/-- The `deviceInfo` sub-dict of a transaction: `{'userAgent': ...}`. -/
structure DeviceInfo where
  userAgent : Option String

/-- A raw transaction event, mirroring the dict consumed by
`extract_features`. The amount may be absent (`.get('amount', 0)`). -/
structure Transaction where
  amount : Option ℚ
  txType : String
  timestamp : String
  location : Option Location
  deviceInfo : Option DeviceInfo

/-- Caller-supplied user history record. -/
structure UserHistory where
  account_age_days : ℚ
  transaction_count : ℚ
  avg_amount : ℚ
  recent_tx_count : ℚ
  hours_since_last_tx : ℚ

/-- The processing instant: what `datetime.now().hour` and
`datetime.now().weekday()` return during the scoring call. -/
structure Clock where
  hour : ℚ
  weekday : ℚ

/-- The random source used by the four sub-scorers: one beta-sampling
function per call site, taking the shape parameters `(a, b)` of the
`np.random.beta(a, b)` draw. -/
structure Rng where
  locDraw : ℕ → ℕ → ℚ
  devDraw : ℕ → ℕ → ℚ
  velDraw : ℕ → ℕ → ℚ
  behDraw : ℕ → ℕ → ℚ

/-- The two trained member classifiers of `self.model`, as abstract
fraud-probability functions on the scaled feature vector. -/
structure EnsembleModel where
  rf : List ℚ → ℚ
  gb : List ℚ → ℚ

/-- The features dict built by `extract_features` (12 entries). -/
structure Features where
  transaction_amount : ℚ
  hour_of_day : ℚ
  day_of_week : ℚ
  user_age_days : ℚ
  previous_transactions : ℚ
  avg_transaction_amount : ℚ
  location_risk_score : ℚ
  device_risk_score : ℚ
  velocity_score : ℚ
  behavioral_score : ℚ
  time_since_last_tx : ℚ
  amount_deviation : ℚ

/-- A JSON-like value, for the result dict returned by `predict_fraud`. -/
inductive JsonVal where
  | num : ℚ → JsonVal
  | str : String → JsonVal
  | obj : List (String × JsonVal) → JsonVal

/-- `self.feature_columns` from `FraudDetectionEngine.__init__`. -/
def feature_columns : List String :=
  ["transaction_amount", "hour_of_day", "day_of_week",
   "user_age_days", "previous_transactions", "avg_transaction_amount",
   "location_risk_score", "device_risk_score", "velocity_score",
   "behavioral_score", "time_since_last_tx", "amount_deviation"]

/-- The country allow-list of `_compute_location_risk`. -/
def lowRiskCountries : List String := ["NG", "KE", "GH", "ZA"]

/-- Substring tag checked in `_compute_device_risk`. -/
def mobileTag : String := "Mobile"

/-- Substring tag checked in `_compute_device_risk`. -/
def androidTag : String := "Android"

/-- Contiguous-subsequence test on character lists. -/
def containsSeq (needle : List Char) : List Char → Bool
  | [] => needle.isEmpty
  | c :: rest => needle.isPrefixOf (c :: rest) || containsSeq needle rest

/-- Python's `needle in hay` on strings. -/
def hasSubstr (needle hay : String) : Bool :=
  containsSeq needle.toList hay.toList

/-- `transaction_data.get('location', {}).get('country')`. -/
def transaction_country (t : Transaction) : Option String :=
  match t.location with
  | some loc => loc.country
  | none => none

/-- `transaction_data.get('deviceInfo', {}).get('userAgent', '')`. -/
def transaction_user_agent (t : Transaction) : String :=
  match t.deviceInfo with
  | some d => match d.userAgent with
              | some ua => ua
              | none => ""
  | none => ""

/-- `_compute_location_risk`: allow-listed countries draw Beta(2,8),
everything else (including a missing country) draws Beta(5,5). -/
def compute_location_risk (rng : Rng) (t : Transaction) : ℚ :=
  if (match transaction_country t with
      | some c => lowRiskCountries.contains c
      | none => false) then rng.locDraw 2 8
  else rng.locDraw 5 5

/-- `_compute_device_risk`: a user agent containing both "Mobile" and
"Android" draws Beta(2,8), otherwise Beta(4,6). -/
def compute_device_risk (rng : Rng) (t : Transaction) : ℚ :=
  if hasSubstr mobileTag (transaction_user_agent t)
      && hasSubstr androidTag (transaction_user_agent t) then rng.devDraw 2 8
  else rng.devDraw 4 6

/-- `_compute_velocity_risk`: no history gives the constant 0.1;
`recent_tx_count > 10` draws Beta(8,2), else Beta(2,8). -/
def compute_velocity_risk (rng : Rng) (user_history : Option UserHistory) : ℚ :=
  match user_history with
  | none => 1/10
  | some u => if u.recent_tx_count > 10 then rng.velDraw 8 2 else rng.velDraw 2 8

/-- `_compute_behavioral_score`: no history gives the constant 0.5,
otherwise a Beta(6,4) draw. Trust polarity (higher = more trustworthy). -/
def compute_behavioral_score (rng : Rng) (user_history : Option UserHistory) : ℚ :=
  match user_history with
  | none => 1/2
  | some _ => rng.behDraw 6 4

/-- `extract_features(transaction_data, user_history)`. A missing amount
is coerced to 0 by `.get('amount', 0)`; no validation is applied. -/
def extract_features (rng : Rng) (clock : Clock)
    (transaction_data : Transaction) (user_history : Option UserHistory) :
    Features :=
  let transaction_amount := transaction_data.amount.getD 0
  let avg_transaction_amount :=
    match user_history with
    | some u => u.avg_amount
    | none => transaction_amount
  { transaction_amount := transaction_amount
    hour_of_day := clock.hour
    day_of_week := clock.weekday
    user_age_days :=
      match user_history with
      | some u => u.account_age_days
      | none => 1
    previous_transactions :=
      match user_history with
      | some u => u.transaction_count
      | none => 0
    avg_transaction_amount := avg_transaction_amount
    location_risk_score := compute_location_risk rng transaction_data
    device_risk_score := compute_device_risk rng transaction_data
    velocity_score := compute_velocity_risk rng user_history
    behavioral_score := compute_behavioral_score rng user_history
    time_since_last_tx :=
      match user_history with
      | some u => u.hours_since_last_tx
      | none => 24
    amount_deviation := |transaction_amount - avg_transaction_amount| }

/-- The features dict as a key/value list in the source's insertion
order (which coincides with `feature_columns`). -/
def Features.toAssoc (f : Features) : List (String × ℚ) :=
  [("transaction_amount", f.transaction_amount),
   ("hour_of_day", f.hour_of_day),
   ("day_of_week", f.day_of_week),
   ("user_age_days", f.user_age_days),
   ("previous_transactions", f.previous_transactions),
   ("avg_transaction_amount", f.avg_transaction_amount),
   ("location_risk_score", f.location_risk_score),
   ("device_risk_score", f.device_risk_score),
   ("velocity_score", f.velocity_score),
   ("behavioral_score", f.behavioral_score),
   ("time_since_last_tx", f.time_since_last_tx),
   ("amount_deviation", f.amount_deviation)]

/-- `pd.DataFrame([features])[self.feature_columns]`: select the feature
columns in their fixed order; a missing column would fail (KeyError). -/
def selectColumns (fs : List (String × ℚ)) : Option (List ℚ) :=
  feature_columns.mapM (fun c => fs.lookup c)

/-- Per-feature standardization parameters of the fitted scaler. -/
structure NormalizationParams where
  mean : List ℚ
  std : List ℚ

/-- Modelled from the spec: the fitted scaler's `transform`
(`self.scaler.transform`, sklearn `StandardScaler` — library code not in
`src/`): per-coordinate `(x - mean) / std`. -/
def normalize (p : NormalizationParams) (v : List ℚ) : List ℚ :=
  List.zipWith (fun x ms => (x - ms.1) / ms.2) v (p.mean.zip p.std)

/-- Modelled from the spec: the inverse of `normalize`
(`normalize_inverse` in the spec's idempotence property, §8):
per-coordinate `x * std + mean`. -/
def normalize_inverse (p : NormalizationParams) (v : List ℚ) : List ℚ :=
  List.zipWith (fun x ms => x * ms.2 + ms.1) v (p.mean.zip p.std)

/-- The ensemble combiner: `(rf_prob + gb_prob) / 2`. -/
def ensembleProbability (p1 p2 : ℚ) : ℚ := (p1 + p2) / 2

/-- The confidence rule: `max(fraud_probability, 1 - fraud_probability)`. -/
def confidenceOf (p : ℚ) : ℚ := max p (1 - p)

/-- The threshold chain of `predict_fraud`: `< 0.3` LOW/APPROVE,
`< 0.7` MEDIUM/REVIEW, else HIGH/BLOCK. -/
def riskDecision (p : ℚ) : String × String :=
  if p < 3/10 then ("LOW", "APPROVE")
  else if p < 7/10 then ("MEDIUM", "REVIEW")
  else ("HIGH", "BLOCK")

/-- Python's `round()` on an exact rational: round half to even. -/
def pyRound (x : ℚ) : ℤ :=
  if x - ⌊x⌋ < 1/2 then ⌊x⌋
  else if 1/2 < x - ⌊x⌋ then ⌊x⌋ + 1
  else if ⌊x⌋ % 2 = 0 then ⌊x⌋ else ⌊x⌋ + 1

/-- Python's `round(x, 3)`. -/
def round3 (x : ℚ) : ℚ := (pyRound (x * 1000) : ℚ) / 1000

/-- `f"{processing_time:.0f}ms"`. -/
def formatMs (t : ℚ) : String := toString (pyRound t) ++ "ms"

/-- `predict_fraud(transaction_data, user_history)`. The elapsed wall
time (`(time.time() - start_time) * 1000`) and the ISO timestamp of
`datetime.now().isoformat()` are explicit arguments. Returns the result
dict as an ordered key/value list; `none` models the KeyError path of
the column selection (never taken, as proved below). -/
def predict_fraud (model : EnsembleModel) (scaler : NormalizationParams)
    (rng : Rng) (clock : Clock) (elapsed_ms : ℚ) (now_iso : String)
    (transaction_data : Transaction) (user_history : Option UserHistory) :
    Option (List (String × JsonVal)) :=
  let features := extract_features rng clock transaction_data user_history
  (selectColumns features.toAssoc).map (fun vec =>
    let feature_scaled := normalize scaler vec
    let rf_prob := model.rf feature_scaled
    let gb_prob := model.gb feature_scaled
    let fraud_probability := ensembleProbability rf_prob gb_prob
    let rd := riskDecision fraud_probability
    [("riskScore", JsonVal.num (round3 fraud_probability)),
     ("riskLevel", JsonVal.str rd.1),
     ("decision", JsonVal.str rd.2),
     ("confidence", JsonVal.num (round3 (confidenceOf fraud_probability))),
     ("processingTime", JsonVal.str (formatMs elapsed_ms)),
     ("features", JsonVal.obj
       [("behavioralScore", JsonVal.num (round3 features.behavioral_score)),
        ("locationScore", JsonVal.num (round3 (1 - features.location_risk_score))),
        ("deviceScore", JsonVal.num (round3 (1 - features.device_risk_score))),
        ("velocityScore", JsonVal.num (round3 (1 - features.velocity_score)))]),
     ("timestamp", JsonVal.str now_iso)])

/-- Top-level key order of the result dict of `predict_fraud`. -/
def camelKeys : List String :=
  ["riskScore", "riskLevel", "decision", "confidence",
   "processingTime", "features", "timestamp"]

/-- Key order of the nested `features` group of the result dict. -/
def featureScoreKeys : List String :=
  ["behavioralScore", "locationScore", "deviceScore", "velocityScore"]

/-- The ScoreResult field names as the spec's data model states them
(§3): snake_case, with a `sub_scores` group. Written from the spec, for
comparison with the dict the source actually returns. -/
def specResultKeys : List String :=
  ["risk_score", "risk_level", "decision", "confidence",
   "processing_time_ms", "sub_scores", "timestamp"]

/-- The spec's name for the risk score field. -/
def specRiskScoreName : String := "risk_score"

/-- The spec's name for the sub-score group. -/
def specSubScoresName : String := "sub_scores"

/-- Key constant, for lookups in theorem statements. -/
def riskScoreKey : String := "riskScore"

/-- Key constant, for lookups in theorem statements. -/
def riskLevelKey : String := "riskLevel"

/-- Key constant, for lookups in theorem statements. -/
def decisionKey : String := "decision"

/-- Key constant, for lookups in theorem statements. -/
def confidenceKey : String := "confidence"

/-- Key constant, for lookups in theorem statements. -/
def processingTimeKey : String := "processingTime"

/-- Key constant, for lookups in theorem statements. -/
def featuresKey : String := "features"

/-- Key constant, for lookups in theorem statements. -/
def behavioralScoreKey : String := "behavioralScore"

/-- Key constant, for lookups in theorem statements. -/
def locationScoreKey : String := "locationScore"

/-- Key constant, for lookups in theorem statements. -/
def deviceScoreKey : String := "deviceScore"

/-- Key constant, for lookups in theorem statements. -/
def velocityScoreKey : String := "velocityScore"

/-- A value carries at most 3 decimal places. -/
def isMilli (q : ℚ) : Prop := ∃ n : ℤ, q = (n : ℚ) / 1000

/-- Numeric leaves at the top level of a result entry. -/
def shallowMilli : JsonVal → Prop
  | JsonVal.num q => isMilli q
  | JsonVal.str _ => True
  | JsonVal.obj _ => True

/-- Both member classifiers always emit a probability in [0,1]. -/
def ModelProb (m : EnsembleModel) : Prop :=
  ∀ v, (0 ≤ m.rf v ∧ m.rf v ≤ 1) ∧ (0 ≤ m.gb v ∧ m.gb v ≤ 1)

/-- Every beta draw of the random source lands in [0,1]. -/
def RngUnit (rng : Rng) : Prop :=
  ∀ a b, (0 ≤ rng.locDraw a b ∧ rng.locDraw a b ≤ 1) ∧
         (0 ≤ rng.devDraw a b ∧ rng.devDraw a b ≤ 1) ∧
         (0 ≤ rng.velDraw a b ∧ rng.velDraw a b ≤ 1) ∧
         (0 ≤ rng.behDraw a b ∧ rng.behDraw a b ≤ 1)

/-- A random source that returns the same constant on every draw. -/
def constRng (c : ℚ) : Rng := ⟨fun _ _ => c, fun _ _ => c, fun _ _ => c, fun _ _ => c⟩

/-- A model whose two members return fixed probabilities. -/
def constModel (q1 q2 : ℚ) : EnsembleModel := ⟨fun _ => q1, fun _ => q2⟩

/-- Identity scaler parameters (mean 0, std 1 for all 12 features). -/
def unitParams : NormalizationParams :=
  ⟨List.replicate 12 0, List.replicate 12 1⟩

/-- A fixed processing instant for concrete scenarios. -/
def clock0 : Clock := ⟨12, 2⟩

/-- A fixed ISO timestamp for concrete scenarios. -/
def isoT0 : String := "2024-01-01T00:00:00"

/-- A second fixed ISO timestamp for concrete scenarios. -/
def isoT1 : String := "2024-01-01T00:00:01"

/-- The country of the source's `__main__` test transaction. -/
def sampleCountry : String := "NG"

/-- The user agent of the source's `__main__` test transaction. -/
def sampleUserAgent : String := "Mozilla/5.0 (Mobile; Android)"

/-- The malformed transaction of the spec's end-to-end scenario 3:
`amount = -50`. -/
def negativeTx : Transaction :=
  { amount := some (-50), txType := "transfer", timestamp := isoT0,
    location := none, deviceInfo := none }

/-- A transaction with no amount field at all. -/
def missingAmountTx : Transaction :=
  { amount := none, txType := "transfer", timestamp := isoT0,
    location := none, deviceInfo := none }

/-- The test transaction of the source's `__main__` block. -/
def sampleTx : Transaction :=
  { amount := some 1000, txType := "transfer", timestamp := isoT0,
    location := some ⟨some sampleCountry⟩,
    deviceInfo := some ⟨some sampleUserAgent⟩ }

/-- The test history of the source's `__main__` block. -/
def sampleHistory : UserHistory :=
  { account_age_days := 30, transaction_count := 15, avg_amount := 500,
    recent_tx_count := 2, hours_since_last_tx := 6 }

/-! Helper lemmas. -/

lemma le_pyRound (m : ℤ) (x : ℚ) (h : (m : ℚ) ≤ x) : m ≤ pyRound x := by
  have hf : m ≤ ⌊x⌋ := Int.le_floor.mpr h
  unfold pyRound
  split_ifs <;> omega

lemma pyRound_le (m : ℤ) (x : ℚ) (h : x ≤ (m : ℚ)) : pyRound x ≤ m := by
  have hfl : (⌊x⌋ : ℚ) ≤ x := Int.floor_le x
  have hf : ⌊x⌋ ≤ m := by exact_mod_cast hfl.trans h
  have hstep : ¬(x - ⌊x⌋ < 1/2) → ⌊x⌋ + 1 ≤ m := by
    intro h1
    push_neg at h1
    have hx : (⌊x⌋ : ℚ) < x := by linarith
    have : ⌊x⌋ < m := by exact_mod_cast hx.trans_le h
    omega
  unfold pyRound
  split_ifs with h1 h2 h3
  · exact hf
  · exact hstep h1
  · exact hf
  · exact hstep h1

lemma pyRound_of_lt_half (n : ℤ) (x : ℚ) (h1 : (n : ℚ) ≤ x)
    (h2 : x < (n : ℚ) + 1/2) : pyRound x = n := by
  have hfl : ⌊x⌋ = n := Int.floor_eq_iff.mpr ⟨h1, by linarith⟩
  simp only [pyRound, hfl]
  rw [if_pos (by linarith)]

lemma pyRound_of_gt_half (n : ℤ) (x : ℚ) (h1 : (n : ℚ) + 1/2 < x)
    (h2 : x < (n : ℚ) + 1) : pyRound x = n + 1 := by
  have hfl : ⌊x⌋ = n := Int.floor_eq_iff.mpr ⟨by linarith, by linarith⟩
  simp only [pyRound, hfl]
  rw [if_neg (by linarith), if_pos (by linarith)]

lemma round3_isMilli (x : ℚ) : isMilli (round3 x) := ⟨pyRound (x * 1000), rfl⟩

lemma round3_nonneg (x : ℚ) (h : 0 ≤ x) : 0 ≤ round3 x := by
  have hn : (0 : ℤ) ≤ pyRound (x * 1000) := le_pyRound 0 _ (by push_cast; linarith)
  unfold round3
  apply div_nonneg _ (by norm_num)
  exact_mod_cast hn

lemma round3_le_one (x : ℚ) (h : x ≤ 1) : round3 x ≤ 1 := by
  have hn : pyRound (x * 1000) ≤ 1000 := pyRound_le 1000 _ (by push_cast; linarith)
  unfold round3
  rw [div_le_one (by norm_num)]
  exact_mod_cast hn

lemma round3_ge_half (x : ℚ) (h : 1/2 ≤ x) : 1/2 ≤ round3 x := by
  have hn : (500 : ℤ) ≤ pyRound (x * 1000) := le_pyRound 500 _ (by push_cast; linarith)
  have h2 : ((500 : ℤ) : ℚ) ≤ (pyRound (x * 1000) : ℚ) := by exact_mod_cast hn
  unfold round3
  rw [le_div_iff₀ (by norm_num)]
  push_cast at h2 ⊢
  linarith

lemma round3_three_fifths : round3 (3/5) = 3/5 := by
  unfold round3
  rw [show (3/5 : ℚ) * 1000 = ((600 : ℤ) : ℚ) by norm_num,
    pyRound_of_lt_half 600 _ (by norm_num) (by norm_num)]
  norm_num

lemma round3_two_thirds : round3 (2/3) = 667/1000 := by
  unfold round3
  rw [show (2/3 : ℚ) * 1000 = (2000/3 : ℚ) by norm_num,
    pyRound_of_gt_half 666 _ (by norm_num) (by norm_num)]
  norm_num

lemma roundtrip_aux (v : List ℚ) : ∀ mean std : List ℚ,
    v.length = mean.length → mean.length = std.length → (∀ s ∈ std, s ≠ 0) →
    List.zipWith (fun x ms => (x - ms.1) / ms.2)
      (List.zipWith (fun x ms => x * ms.2 + ms.1) v (mean.zip std))
      (mean.zip std) = v := by
  induction v with
  | nil => intro mean std _ _ _; simp
  | cons x v ih =>
    intro mean std hvm hms hstd
    cases mean with
    | nil => simp at hvm
    | cons m mean =>
      cases std with
      | nil => simp at hms
      | cons s std =>
        have hs : s ≠ 0 := hstd s (by simp)
        simp only [List.zip_cons_cons, List.zipWith_cons_cons]
        congr 1
        · rw [add_sub_cancel_right, mul_div_cancel_right₀ _ hs]
        · exact ih mean std (by simpa using hvm) (by simpa using hms)
            (fun t ht => hstd t (by simp [ht]))

lemma location_risk_mem (rng : Rng) (t : Transaction) (h : RngUnit rng) :
    0 ≤ compute_location_risk rng t ∧ compute_location_risk rng t ≤ 1 := by
  unfold compute_location_risk
  split_ifs <;> exact (h _ _).1

lemma device_risk_mem (rng : Rng) (t : Transaction) (h : RngUnit rng) :
    0 ≤ compute_device_risk rng t ∧ compute_device_risk rng t ≤ 1 := by
  unfold compute_device_risk
  split_ifs <;> exact (h _ _).2.1

lemma velocity_risk_mem (rng : Rng) (u : Option UserHistory) (h : RngUnit rng) :
    0 ≤ compute_velocity_risk rng u ∧ compute_velocity_risk rng u ≤ 1 := by
  cases u with
  | none => norm_num [compute_velocity_risk]
  | some u =>
    simp only [compute_velocity_risk]
    split_ifs <;> exact (h _ _).2.2.1

lemma behavioral_score_mem (rng : Rng) (u : Option UserHistory) (h : RngUnit rng) :
    0 ≤ compute_behavioral_score rng u ∧ compute_behavioral_score rng u ≤ 1 := by
  cases u with
  | none => norm_num [compute_behavioral_score]
  | some u => exact (h _ _).2.2.2

lemma confidenceOf_mem (p : ℚ) (h0 : 0 ≤ p) (h1 : p ≤ 1) :
    1/2 ≤ confidenceOf p ∧ confidenceOf p ≤ 1 := by
  unfold confidenceOf
  constructor
  · rcases le_total p (1/2) with hp | hp
    · exact le_max_of_le_right (by linarith)
    · exact le_max_of_le_left hp
  · exact max_le h1 (by linarith)

/-! Claim theorems. -/

/-- C3: the decision mapping inside `predict_fraud` is a pure function of
the single ensemble probability with left-closed/right-open thresholds:
p < 0.3 gives (LOW, APPROVE), 0.3 ≤ p < 0.7 gives (MEDIUM, REVIEW), and
p ≥ 0.7 gives (HIGH, BLOCK); in particular the boundary values 0.3 and
0.7 map to (MEDIUM, REVIEW) and (HIGH, BLOCK) respectively. -/
theorem C3_decision_thresholds (p : ℚ) :
    ((p < 3/10 → riskDecision p = ("LOW", "APPROVE")) ∧
     (3/10 ≤ p → p < 7/10 → riskDecision p = ("MEDIUM", "REVIEW")) ∧
     (7/10 ≤ p → riskDecision p = ("HIGH", "BLOCK"))) ∧
    riskDecision (3/10) = ("MEDIUM", "REVIEW") ∧
    riskDecision (7/10) = ("HIGH", "BLOCK") := by
  refine ⟨⟨?_, ?_, ?_⟩, ?_, ?_⟩ <;> intros <;> simp only [riskDecision] <;>
    split_ifs <;> first | rfl | linarith

/-- Witness for C3 at the concrete probabilities 0.1, 0.5 and 0.9. -/
theorem C3_decision_thresholds_witness :
    riskDecision (1/10) = ("LOW", "APPROVE") ∧
    riskDecision (1/2) = ("MEDIUM", "REVIEW") ∧
    riskDecision (9/10) = ("HIGH", "BLOCK") :=
  ⟨(C3_decision_thresholds (1/10)).1.1 (by norm_num),
   (C3_decision_thresholds (1/2)).1.2.1 (by norm_num) (by norm_num),
   (C3_decision_thresholds (9/10)).1.2.2 (by norm_num)⟩

/-- C4: the ensemble probability of `predict_fraud` is the arithmetic
mean of the two member probabilities, and the confidence is
max(p, 1 − p), always in [0.5, 1] for member outputs in [0,1]; for the
fixed member outputs 0.8 and 0.4 the prediction is 0.6 and the
confidence is 0.6. -/
theorem C4_ensemble_mean_confidence (p1 p2 : ℚ) (h10 : 0 ≤ p1) (h11 : p1 ≤ 1)
    (h20 : 0 ≤ p2) (h21 : p2 ≤ 1) :
    ensembleProbability p1 p2 = (p1 + p2) / 2 ∧
    confidenceOf (ensembleProbability p1 p2)
      = max (ensembleProbability p1 p2) (1 - ensembleProbability p1 p2) ∧
    1/2 ≤ confidenceOf (ensembleProbability p1 p2) ∧
    confidenceOf (ensembleProbability p1 p2) ≤ 1 ∧
    ensembleProbability (4/5) (2/5) = 3/5 ∧
    confidenceOf (3/5) = 3/5 := by
  have hm : 0 ≤ ensembleProbability p1 p2 ∧ ensembleProbability p1 p2 ≤ 1 := by
    unfold ensembleProbability
    constructor <;> linarith
  obtain ⟨hc1, hc2⟩ := confidenceOf_mem _ hm.1 hm.2
  refine ⟨rfl, rfl, hc1, hc2, by norm_num [ensembleProbability], ?_⟩
  unfold confidenceOf
  norm_num

/-- Witness for C4 at the fixed member outputs 0.8 and 0.4. -/
theorem C4_ensemble_mean_confidence_witness :
    ensembleProbability (4/5) (2/5) = 3/5 ∧ confidenceOf (3/5) = 3/5 :=
  ⟨(C4_ensemble_mean_confidence (4/5) (2/5) (by norm_num) (by norm_num)
      (by norm_num) (by norm_num)).2.2.2.2.1,
   (C4_ensemble_mean_confidence (4/5) (2/5) (by norm_num) (by norm_num)
      (by norm_num) (by norm_num)).2.2.2.2.2⟩

/-- C5: with no history, `extract_features` uses the cold-start defaults
user_age_days = 1, previous_transactions = 0, avg_transaction_amount =
transaction_amount, time_since_last_tx = 24, hence amount_deviation = 0;
with a history record the four fields are copied from account_age_days,
transaction_count, avg_amount and hours_since_last_tx. -/
theorem C5_history_defaults (rng : Rng) (clock : Clock) (t : Transaction)
    (u : UserHistory) :
    ((extract_features rng clock t none).user_age_days = 1 ∧
     (extract_features rng clock t none).previous_transactions = 0 ∧
     (extract_features rng clock t none).avg_transaction_amount
       = (extract_features rng clock t none).transaction_amount ∧
     (extract_features rng clock t none).time_since_last_tx = 24 ∧
     (extract_features rng clock t none).amount_deviation = 0) ∧
    ((extract_features rng clock t (some u)).user_age_days = u.account_age_days ∧
     (extract_features rng clock t (some u)).previous_transactions = u.transaction_count ∧
     (extract_features rng clock t (some u)).avg_transaction_amount = u.avg_amount ∧
     (extract_features rng clock t (some u)).time_since_last_tx = u.hours_since_last_tx) := by
  refine ⟨⟨rfl, rfl, rfl, rfl, ?_⟩, rfl, rfl, rfl, rfl⟩
  have hd : (extract_features rng clock t none).amount_deviation
      = |t.amount.getD 0 - t.amount.getD 0| := rfl
  rw [hd]
  simp

/-- C6: the feature vector handed to the scaler and classifiers is the
12 named fields in the fixed `feature_columns` order; the features dict
populates exactly these keys in that order and column selection never
fails. -/
theorem C6_feature_vector_order (rng : Rng) (clock : Clock) (t : Transaction)
    (h : Option UserHistory) :
    ((extract_features rng clock t h).toAssoc.map Prod.fst = feature_columns) ∧
    ∃ vec, selectColumns (extract_features rng clock t h).toAssoc = some vec ∧
      vec.length = 12 ∧
      vec = [(extract_features rng clock t h).transaction_amount,
             (extract_features rng clock t h).hour_of_day,
             (extract_features rng clock t h).day_of_week,
             (extract_features rng clock t h).user_age_days,
             (extract_features rng clock t h).previous_transactions,
             (extract_features rng clock t h).avg_transaction_amount,
             (extract_features rng clock t h).location_risk_score,
             (extract_features rng clock t h).device_risk_score,
             (extract_features rng clock t h).velocity_score,
             (extract_features rng clock t h).behavioral_score,
             (extract_features rng clock t h).time_since_last_tx,
             (extract_features rng clock t h).amount_deviation] :=
  ⟨rfl, _, rfl, rfl, rfl⟩

/-- C9: hour_of_day and day_of_week come from the processing clock, not
the transaction's timestamp: two transactions that differ only in their
timestamp field give identical feature vectors under the same clock and
random source. -/
theorem C9_timestamp_independent (rng : Rng) (clock : Clock)
    (h : Option UserHistory) (amount : Option ℚ) (ty ts1 ts2 : String)
    (loc : Option Location) (dev : Option DeviceInfo) :
    extract_features rng clock ⟨amount, ty, ts1, loc, dev⟩ h
      = extract_features rng clock ⟨amount, ty, ts2, loc, dev⟩ h ∧
    (extract_features rng clock ⟨amount, ty, ts1, loc, dev⟩ h).hour_of_day = clock.hour ∧
    (extract_features rng clock ⟨amount, ty, ts1, loc, dev⟩ h).day_of_week = clock.weekday :=
  ⟨rfl, rfl, rfl⟩

/-- C1 counterexample: contrary to the claim, `predict_fraud` does
return a ScoreResult for a transaction with amount −50 (and for a
missing amount); the negative amount is passed straight into the
features and no validation error occurs. -/
theorem C1_counterexample :
    (predict_fraud (constModel (1/2) (1/2)) unitParams (constRng (1/2)) clock0
        5 isoT0 negativeTx none).isSome = true ∧
    (extract_features (constRng (1/2)) clock0 negativeTx none).transaction_amount = -50 ∧
    (predict_fraud (constModel (1/2) (1/2)) unitParams (constRng (1/2)) clock0
        5 isoT0 missingAmountTx none).isSome = true ∧
    (extract_features (constRng (1/2)) clock0 missingAmountTx none).transaction_amount = 0 :=
  ⟨rfl, rfl, rfl, rfl⟩

/-- C1 amended: feature extraction applies no validation — a missing
amount is coerced to 0 and a negative amount such as −50 is passed
through as the transaction_amount feature — and `predict_fraud` returns
a ScoreResult for every transaction, malformed amounts included. -/
theorem C1_no_validation (model : EnsembleModel) (scaler : NormalizationParams)
    (rng : Rng) (clock : Clock) (ems : ℚ) (iso : String) (t : Transaction)
    (h : Option UserHistory) :
    (predict_fraud model scaler rng clock ems iso t h).isSome = true ∧
    (extract_features rng clock t h).transaction_amount = t.amount.getD 0 :=
  ⟨rfl, rfl⟩

/-- C7: normalization is per-coordinate linear standardization
(x − mean)/std, and it round-trips with its inverse — exactly, in exact
arithmetic — for parameters of matching length with nonzero standard
deviations. -/
theorem C7_normalize_roundtrip (v : List ℚ) (p : NormalizationParams)
    (hvm : v.length = p.mean.length) (hms : p.mean.length = p.std.length)
    (hstd : ∀ s ∈ p.std, s ≠ 0) :
    (∀ i a m s, v.get? i = some a → p.mean.get? i = some m → p.std.get? i = some s →
       (normalize p v).get? i = some ((a - m) / s)) ∧
    normalize p (normalize_inverse p v) = v := by
  constructor
  · intro i a m s ha hm hs
    unfold normalize
    rw [List.get?_zipWith_eq_some]
    exact ⟨a, (m, s), ha, (List.get?_zip_eq_some _ _ _ _).mpr ⟨hm, hs⟩, rfl⟩
  · unfold normalize normalize_inverse
    exact roundtrip_aux v p.mean p.std hvm hms hstd

/-- Witness for C7 at the vector [1, 2] with means [3, 4] and standard
deviations [5, 6]. -/
theorem C7_normalize_roundtrip_witness :
    (normalize ⟨[3, 4], [5, 6]⟩ [1, 2]).get? 0 = some ((1 - 3) / 5) ∧
    normalize ⟨[3, 4], [5, 6]⟩ (normalize_inverse ⟨[3, 4], [5, 6]⟩ [1, 2]) = [1, 2] := by
  have h := C7_normalize_roundtrip [1, 2] ⟨[3, 4], [5, 6]⟩ rfl rfl
    (by intro s hs; fin_cases hs <;> norm_num)
  exact ⟨h.1 0 1 3 5 rfl rfl rfl, h.2⟩

/-- C8 counterexample: with a random source whose location draw is 1/3,
the displayed locationScore is round(1 − 1/3, 3) = 0.667, which is not
equal to 1 − 1/3; the claim's exact equality fails because of the
3-decimal rounding. -/
theorem C8_counterexample :
    (extract_features (constRng (1/3)) clock0 sampleTx none).location_risk_score = 1/3 ∧
    (∃ r fs, predict_fraud (constModel (1/2) (1/2)) unitParams (constRng (1/3)) clock0
        5 isoT0 sampleTx none = some r ∧
      r.lookup featuresKey = some (JsonVal.obj fs) ∧
      fs.lookup locationScoreKey = some (JsonVal.num (round3 (1 - 1/3)))) ∧
    round3 (1 - 1/3) = 667/1000 ∧
    (667/1000 : ℚ) ≠ 1 - 1/3 := by
  refine ⟨rfl, ⟨_, _, rfl, rfl, rfl⟩, ?_, by norm_num⟩
  rw [show (1 - 1/3 : ℚ) = 2/3 by norm_num]
  exact round3_two_thirds

/-- C8 amended: the displayed sub_scores equal the 3-decimal rounding of
1 minus the extracted location, device and velocity risk scores, with
the behavioral score rounded but not inverted; the inversion applies
only to the returned result, and the feature vector given to the scaler
and classifiers holds the uninverted raw scores. -/
theorem C8_display_inversion (model : EnsembleModel) (scaler : NormalizationParams)
    (rng : Rng) (clock : Clock) (ems : ℚ) (iso : String) (t : Transaction)
    (h : Option UserHistory) :
    ∃ vec r fs,
      selectColumns (extract_features rng clock t h).toAssoc = some vec ∧
      vec.get? 6 = some (extract_features rng clock t h).location_risk_score ∧
      vec.get? 7 = some (extract_features rng clock t h).device_risk_score ∧
      vec.get? 8 = some (extract_features rng clock t h).velocity_score ∧
      vec.get? 9 = some (extract_features rng clock t h).behavioral_score ∧
      predict_fraud model scaler rng clock ems iso t h = some r ∧
      r.lookup featuresKey = some (JsonVal.obj fs) ∧
      fs = [(behavioralScoreKey,
              JsonVal.num (round3 (extract_features rng clock t h).behavioral_score)),
            (locationScoreKey,
              JsonVal.num (round3 (1 - (extract_features rng clock t h).location_risk_score))),
            (deviceScoreKey,
              JsonVal.num (round3 (1 - (extract_features rng clock t h).device_risk_score))),
            (velocityScoreKey,
              JsonVal.num (round3 (1 - (extract_features rng clock t h).velocity_score)))] :=
  ⟨_, _, _, rfl, rfl, rfl, rfl, rfl, rfl, rfl, rfl⟩

/-- C2 counterexample: the result dict of `predict_fraud` uses the
camelCase keys riskScore/riskLevel/…, groups the sub-scores under
"features" rather than "sub_scores", and reports the processing time as
a string, so the claimed exact field names and nesting do not hold. -/
theorem C2_counterexample :
    ∃ r, predict_fraud (constModel (1/2) (1/2)) unitParams (constRng (1/2)) clock0
        5 isoT0 sampleTx (some sampleHistory) = some r ∧
      r.map Prod.fst = camelKeys ∧
      camelKeys ≠ specResultKeys ∧
      ¬ (specRiskScoreName ∈ camelKeys) ∧
      ¬ (specSubScoresName ∈ camelKeys) ∧
      (∃ s, r.lookup processingTimeKey = some (JsonVal.str s)) :=
  ⟨_, rfl, rfl, by decide, by decide, by decide, _, rfl⟩

/-- C2 amended: every result of `predict_fraud` is a dict with the fixed
camelCase key order riskScore, riskLevel, decision, confidence,
processingTime, features, timestamp; riskScore is a float in [0,1] and
confidence a float in [0.5,1] whenever the member classifiers emit
probabilities in [0,1]; processingTime is a string, and the features
group holds behavioralScore, locationScore, deviceScore, velocityScore,
each a float in [0,1] whenever the random draws lie in [0,1]. -/
theorem C2_result_shape (model : EnsembleModel) (scaler : NormalizationParams)
    (rng : Rng) (clock : Clock) (ems : ℚ) (iso : String) (t : Transaction)
    (h : Option UserHistory) (hm : ModelProb model) (hr : RngUnit rng) :
    ∃ r, predict_fraud model scaler rng clock ems iso t h = some r ∧
      r.map Prod.fst = camelKeys ∧
      (∃ q, r.lookup riskScoreKey = some (JsonVal.num q) ∧ 0 ≤ q ∧ q ≤ 1) ∧
      (∃ q, r.lookup confidenceKey = some (JsonVal.num q) ∧ 1/2 ≤ q ∧ q ≤ 1) ∧
      (∃ s, r.lookup processingTimeKey = some (JsonVal.str s)) ∧
      (∃ fs, r.lookup featuresKey = some (JsonVal.obj fs) ∧
        fs.map Prod.fst = featureScoreKeys ∧
        ∀ kv ∈ fs, ∃ q, kv.2 = JsonVal.num q ∧ 0 ≤ q ∧ q ≤ 1) := by
  have hp : ∀ v, 0 ≤ ensembleProbability (model.rf v) (model.gb v) ∧
      ensembleProbability (model.rf v) (model.gb v) ≤ 1 := by
    intro v
    obtain ⟨⟨a1, a2⟩, b1, b2⟩ := hm v
    unfold ensembleProbability
    constructor <;> linarith
  obtain ⟨hb1, hb2⟩ := behavioral_score_mem rng h hr
  obtain ⟨hl1, hl2⟩ := location_risk_mem rng t hr
  obtain ⟨hd1, hd2⟩ := device_risk_mem rng t hr
  obtain ⟨hv1, hv2⟩ := velocity_risk_mem rng h hr
  have e1 : (extract_features rng clock t h).location_risk_score
      = compute_location_risk rng t := rfl
  have e2 : (extract_features rng clock t h).device_risk_score
      = compute_device_risk rng t := rfl
  have e3 : (extract_features rng clock t h).velocity_score
      = compute_velocity_risk rng h := rfl
  rw [← e1] at hl1 hl2
  rw [← e2] at hd1 hd2
  rw [← e3] at hv1 hv2
  refine ⟨_, rfl, rfl, ⟨_, rfl, round3_nonneg _ (hp _).1, round3_le_one _ (hp _).2⟩,
    ⟨_, rfl, round3_ge_half _ (confidenceOf_mem _ (hp _).1 (hp _).2).1,
      round3_le_one _ (confidenceOf_mem _ (hp _).1 (hp _).2).2⟩,
    ⟨_, rfl⟩, ⟨_, rfl, rfl, ?_⟩⟩
  intro kv hkv
  simp only [List.mem_cons, List.not_mem_nil, or_false] at hkv
  rcases hkv with rfl | rfl | rfl | rfl
  · exact ⟨_, rfl, round3_nonneg _ hb1, round3_le_one _ hb2⟩
  · exact ⟨_, rfl, round3_nonneg _ (by linarith), round3_le_one _ (by linarith)⟩
  · exact ⟨_, rfl, round3_nonneg _ (by linarith), round3_le_one _ (by linarith)⟩
  · exact ⟨_, rfl, round3_nonneg _ (by linarith), round3_le_one _ (by linarith)⟩

/-- Witness for C2 at a concrete model, random source and transaction. -/
theorem C2_result_shape_witness :
    ModelProb (constModel (3/10) (1/2)) ∧ RngUnit (constRng (1/4)) ∧
    ∃ r, predict_fraud (constModel (3/10) (1/2)) unitParams (constRng (1/4)) clock0
        7 isoT1 sampleTx (some sampleHistory) = some r ∧
      r.map Prod.fst = camelKeys := by
  have hm : ModelProb (constModel (3/10) (1/2)) := by
    intro v
    norm_num [constModel]
  have hr : RngUnit (constRng (1/4)) := by
    intro a b
    norm_num [constRng]
  obtain ⟨r, h1, h2, _⟩ := C2_result_shape (constModel (3/10) (1/2)) unitParams
    (constRng (1/4)) clock0 7 isoT1 sampleTx (some sampleHistory) hm hr
  exact ⟨hm, hr, r, h1, h2⟩

/-- C10: every numeric value in a returned ScoreResult — riskScore,
confidence, and the four displayed sub-scores in the features group —
is rounded to 3 decimal places: each is an integer multiple of 1/1000,
so consumers never observe more than 3 decimals of precision. -/
theorem C10_three_decimals (model : EnsembleModel) (scaler : NormalizationParams)
    (rng : Rng) (clock : Clock) (ems : ℚ) (iso : String) (t : Transaction)
    (h : Option UserHistory) (r : List (String × JsonVal))
    (hro : predict_fraud model scaler rng clock ems iso t h = some r) :
    ∀ kv ∈ r, shallowMilli kv.2 ∧
      ∀ fs, kv.2 = JsonVal.obj fs → ∀ kv2 ∈ fs, shallowMilli kv2.2 := by
  obtain rfl := (Option.some.inj hro).symm
  intro kv hkv
  simp only [List.mem_cons, List.not_mem_nil, or_false] at hkv
  rcases hkv with rfl | rfl | rfl | rfl | rfl | rfl | rfl
  · exact ⟨round3_isMilli _, fun fs hfs => JsonVal.noConfusion hfs⟩
  · exact ⟨trivial, fun fs hfs => JsonVal.noConfusion hfs⟩
  · exact ⟨trivial, fun fs hfs => JsonVal.noConfusion hfs⟩
  · exact ⟨round3_isMilli _, fun fs hfs => JsonVal.noConfusion hfs⟩
  · exact ⟨trivial, fun fs hfs => JsonVal.noConfusion hfs⟩
  · refine ⟨trivial, fun fs hfs => ?_⟩
    injection hfs with hfs'
    subst hfs'
    intro kv2 hkv2
    simp only [List.mem_cons, List.not_mem_nil, or_false] at hkv2
    rcases hkv2 with rfl | rfl | rfl | rfl <;> exact round3_isMilli _
  · exact ⟨trivial, fun fs hfs => JsonVal.noConfusion hfs⟩

/-- Witness for C10 at a concrete scoring call. -/
theorem C10_three_decimals_witness :
    (predict_fraud (constModel (1/2) (1/2)) unitParams (constRng (1/2)) clock0
        5 isoT0 sampleTx none
      = some ((predict_fraud (constModel (1/2) (1/2)) unitParams (constRng (1/2)) clock0
          5 isoT0 sampleTx none).getD [])) ∧
    ∀ kv ∈ (predict_fraud (constModel (1/2) (1/2)) unitParams (constRng (1/2)) clock0
        5 isoT0 sampleTx none).getD [],
      shallowMilli kv.2 ∧
        ∀ fs, kv.2 = JsonVal.obj fs → ∀ kv2 ∈ fs, shallowMilli kv2.2 :=
  ⟨rfl, C10_three_decimals (constModel (1/2) (1/2)) unitParams (constRng (1/2)) clock0
    5 isoT0 sampleTx none _ rfl⟩

end FraudDetection
